import Mathlib

/-!
Shallow embedding of the NIGHT-POWER signal-computation core
(`src/rust_core`): the OBI engine (`physics/obi_engine.rs`), the
topological analyzer (`physics/tda.rs`), the competitor heuristic
(`intelligence/game_theory.rs`) and the NAPI facade (`lib.rs`).

Modelling conventions:
- `f64` values are embedded as `ℚ` with exact arithmetic (every literal in
  the source is a decimal rational; the operations used are `+ - * /`,
  `abs`, `min`, and comparisons, all rational-closed). Division follows
  Lean's total-division convention `x / 0 = 0`.
- The process-wide singleton `PHYSICS_ENGINE : Mutex<Option<PhysicsEngine>>`
  becomes explicit state passing of an `Option PhysicsEngine`.
- The `cfg(feature = "cuda")` conditional compilation becomes a
  `cuda_enabled : Bool` parameter; the outcome of the runtime probe
  `CudaDevice::new(0)` (environment-dependent) becomes `cuda_probe_ok : Bool`;
  GPU allocation failures (`htod_copy` / `alloc_zeros`) become an
  `alloc_fail : Option String` parameter carrying the first failure message.
- `println!` / `eprintln!` side effects become an extra `List String` of
  log lines in the return value where a claim refers to them.
- `rayon`'s `par_iter().map(f).collect::<Vec<_>>()` is embedded as
  `List.map f`: rayon's indexed parallel iterator collects results in the
  input's index order by contract, so the parallel fan-out denotes the
  order-preserving element-wise map.
-/

namespace NightPower

/-! ## physics/obi_engine.rs -/

namespace obi_engine

/-- `OrderBookSnapshot` from `obi_engine.rs`. -/
structure OrderBookSnapshot where
  timestamp : Nat
  bid_volume : ℚ
  ask_volume : ℚ
  bid_price : ℚ
  ask_price : ℚ
  deriving DecidableEq, Repr

/-- `ObiResult` from `obi_engine.rs`. -/
structure ObiResult where
  timestamp : Nat
  obi : ℚ
  entropy : ℚ
  signal : String
  deriving DecidableEq, Repr

/-- `PhysicsEngine` struct: `gpu_device` exists only under
`cfg(feature = "cuda")`; in a non-cuda build it is always `none`. -/
structure PhysicsEngine where
  gpu_device : Option Unit
  cpu_fallback : Bool
  deriving DecidableEq, Repr

/-- `PhysicsEngine::init`: locks the singleton and unconditionally
overwrites it. Under `cuda_enabled`, a successful probe stores a GPU
engine; otherwise (probe failure or no cuda feature) it stores the CPU
fallback engine. It returns `Ok(())` in every case. The prior contents
of the singleton are never examined. -/
def PhysicsEngine.init (cuda_enabled cuda_probe_ok : Bool)
    (_engine : Option PhysicsEngine) :
    Option PhysicsEngine × Except String Unit :=
  if cuda_enabled && cuda_probe_ok then
    (some { gpu_device := some (), cpu_fallback := false }, .ok ())
  else
    (some { gpu_device := none, cpu_fallback := true }, .ok ())

/-- `PhysicsEngine::calculate_single_obi`. -/
def PhysicsEngine.calculate_single_obi (snapshot : OrderBookSnapshot) :
    ObiResult :=
  let total_volume := snapshot.bid_volume + snapshot.ask_volume
  let obi :=
    if total_volume > 0 then
      (snapshot.bid_volume - snapshot.ask_volume) / total_volume
    else
      0
  let avg_price := (snapshot.bid_price + snapshot.ask_price) / 2
  let spread := |snapshot.ask_price - snapshot.bid_price|
  let entropy :=
    if avg_price > 0 then
      spread / avg_price
    else
      1
  let signal :=
    if obi > 0.3 then
      "BUY_PRESSURE"
    else if obi < -0.3 then
      "SELL_PRESSURE"
    else
      "NEUTRAL"
  { timestamp := snapshot.timestamp, obi := obi, entropy := entropy,
    signal := signal }

/-- `PhysicsEngine::calculate_obi_batch_cpu`: rayon parallel map,
order-preserving by rayon's collect contract. -/
def PhysicsEngine.calculate_obi_batch_cpu
    (snapshots : List OrderBookSnapshot) : List ObiResult :=
  snapshots.map PhysicsEngine.calculate_single_obi

/-- `PhysicsEngine::calculate_obi_batch_gpu` (`cfg(feature = "cuda")`):
every allocation failure returns an error, and when all allocations
succeed the function still returns the kernel-not-implemented error. -/
def PhysicsEngine.calculate_obi_batch_gpu (alloc_fail : Option String)
    (_snapshots : List OrderBookSnapshot) : Except String (List ObiResult) :=
  match alloc_fail with
  | some e => .error ("GPU alloc failed: " ++ e)
  | none => .error "GPU kernel not implemented yet, use CPU fallback"

/-- Public `calculate_obi_batch`: consults the singleton; uninitialized
returns an empty vector with a warning on stderr; initialized with a GPU
device attempts the GPU path and on its error logs and falls back to the
CPU path. Returns `(results, stderr log lines)`. -/
def calculate_obi_batch (cuda_enabled : Bool) (alloc_fail : Option String)
    (engine : Option PhysicsEngine) (snapshots : List OrderBookSnapshot) :
    List ObiResult × List String :=
  match engine with
  | some eng =>
    if cuda_enabled then
      match eng.gpu_device with
      | some _ =>
        match PhysicsEngine.calculate_obi_batch_gpu alloc_fail snapshots with
        | .ok results => (results, [])
        | .error e =>
          (PhysicsEngine.calculate_obi_batch_cpu snapshots,
           ["[OBI_ENGINE] GPU failed: " ++ e ++ ", using CPU"])
      | none => (PhysicsEngine.calculate_obi_batch_cpu snapshots, [])
    else
      (PhysicsEngine.calculate_obi_batch_cpu snapshots, [])
  | none =>
    ([], ["[OBI_ENGINE] ⚠ Engine not initialized! Call init() first."])

end obi_engine

/-! ## physics/tda.rs -/

namespace tda

open obi_engine

/-- `TopologicalAnalyzer::calculate_curvature`: per-snapshot parallel map;
an empty book (`total_vol == 0.0`) scores maximal instability `1.0`,
otherwise `spread / total_vol` clamped from above by `1.0`. -/
def TopologicalAnalyzer.calculate_curvature
    (snapshots : List OrderBookSnapshot) : List ℚ :=
  snapshots.map fun s =>
    let total_vol := s.bid_volume + s.ask_volume
    let spread := |s.ask_price - s.bid_price|
    if total_vol = 0 then
      1
    else
      min (spread / total_vol) 1

/-- `TopologicalAnalyzer::detect_holes`: averages the curvatures by
dividing by `curvature.len()` with no empty-batch guard, then compares
against the `0.05` threshold. -/
def TopologicalAnalyzer.detect_holes
    (snapshots : List OrderBookSnapshot) : Bool :=
  let curvature := TopologicalAnalyzer.calculate_curvature snapshots
  let avg_curvature : ℚ := curvature.sum / (curvature.length : ℚ)
  decide (avg_curvature > 0.05)

end tda

/-! ## intelligence/game_theory.rs -/

namespace game_theory

/-- `CompetitorAnalysis::analyze`: fixed-order first-match rule chain over
`(bid_volume, ask_volume, spread_percent)` with `wall_threshold = 1000.0`. -/
def CompetitorAnalysis.analyze (bid_volume ask_volume spread_percent : ℚ) :
    String :=
  let wall_threshold : ℚ := 1000.0
  if bid_volume > wall_threshold then
    "DETECTED_FAKE_WALL_BID: DEPLOY_BAIT_SELL"
  else if ask_volume > wall_threshold then
    "DETECTED_FAKE_WALL_ASK: DEPLOY_BAIT_BUY"
  else if spread_percent > 1.0 then
    "MARKET_VOID: DEPLOY_PROBE"
  else
    "NO_COMPETITOR_ANOMALY"

end game_theory

/-! ## lib.rs (NAPI facade) -/

namespace lib

open obi_engine

/-- `OrderBookData` from `lib.rs` (the TypeScript-facing input: note it
carries no timestamp field). -/
structure OrderBookData where
  bid_price : ℚ
  bid_volume : ℚ
  ask_price : ℚ
  ask_volume : ℚ
  deriving DecidableEq, Repr

/-- `ObiResult` from `lib.rs` (the TypeScript-facing output). -/
structure ObiResult where
  imbalance : ℚ
  signal : String
  gpu_latency_ms : ℚ
  deriving DecidableEq, Repr

/-- The snapshot conversion closure inside `lib.rs::calculate_obi_batch`:
`timestamp: 0, // Will be set by engine`. -/
def toSnapshot (data : OrderBookData) : OrderBookSnapshot :=
  { timestamp := 0
    bid_price := data.bid_price
    bid_volume := data.bid_volume
    ask_price := data.ask_price
    ask_volume := data.ask_volume }

/-- `lib.rs::calculate_obi_batch` (the facade): converts every
`OrderBookData` to a snapshot with timestamp `0`, runs the engine batch,
measures one wall-clock latency for the whole batch (embedded as the
parameter `gpu_latency_ms`, since elapsed time is environment input), and
stamps that single latency onto every output element. -/
def calculate_obi_batch (cuda_enabled : Bool) (alloc_fail : Option String)
    (engine : Option PhysicsEngine) (market_data : List OrderBookData)
    (gpu_latency_ms : ℚ) : List ObiResult :=
  let snapshots := market_data.map toSnapshot
  let results :=
    (obi_engine.calculate_obi_batch cuda_enabled alloc_fail engine
      snapshots).1
  results.map fun r =>
    { imbalance := r.obi, signal := r.signal,
      gpu_latency_ms := gpu_latency_ms }

/-- `lib.rs::evaluate_market_entropy`: standalone single-value signal
classification. -/
def evaluate_market_entropy (imbalance : ℚ) : String :=
  if imbalance > 0.3 then
    "BUY_PRESSURE"
  else if imbalance < -0.3 then
    "SELL_PRESSURE"
  else
    "NEUTRAL"

/-- `lib.rs::check_gpu_status`: the singleton is explicit state in this
embedding; the source body consults no state and returns a fixed string. -/
def check_gpu_status (_engine : Option PhysicsEngine) : String :=
  "✅ Physics Engine: READY (Check logs for CUDA/CPU mode)"

end lib

/-! ## Field-level unfolding lemmas -/

theorem calculate_single_obi_obi (s : obi_engine.OrderBookSnapshot) :
    (obi_engine.PhysicsEngine.calculate_single_obi s).obi =
      if s.bid_volume + s.ask_volume > 0 then
        (s.bid_volume - s.ask_volume) / (s.bid_volume + s.ask_volume)
      else 0 := rfl

theorem calculate_single_obi_entropy (s : obi_engine.OrderBookSnapshot) :
    (obi_engine.PhysicsEngine.calculate_single_obi s).entropy =
      if (s.bid_price + s.ask_price) / 2 > 0 then
        |s.ask_price - s.bid_price| / ((s.bid_price + s.ask_price) / 2)
      else 1 := rfl

theorem calculate_single_obi_signal (s : obi_engine.OrderBookSnapshot) :
    (obi_engine.PhysicsEngine.calculate_single_obi s).signal =
      if (obi_engine.PhysicsEngine.calculate_single_obi s).obi > 0.3 then
        "BUY_PRESSURE"
      else if (obi_engine.PhysicsEngine.calculate_single_obi s).obi < -0.3 then
        "SELL_PRESSURE"
      else
        "NEUTRAL" := rfl

/-! ## Claims -/

open obi_engine tda game_theory in
/-- C2: for every snapshot (with the data model's nonnegative fields),
`calculate_single_obi` returns
`obi = (bid_volume - ask_volume) / (bid_volume + ask_volume)` with
`obi = 0` when the total volume is `0`, and
`entropy = |ask_price - bid_price| / ((bid_price + ask_price) / 2)` with
`entropy = 1` when the average price is `0`; consequently `obi ∈ [-1, 1]`
and `entropy ≥ 0`. -/
theorem c2_single_obi_formula_and_range (s : obi_engine.OrderBookSnapshot)
    (hbv : 0 ≤ s.bid_volume) (hav : 0 ≤ s.ask_volume)
    (hbp : 0 ≤ s.bid_price) (hap : 0 ≤ s.ask_price) :
    (PhysicsEngine.calculate_single_obi s).obi =
      (if s.bid_volume + s.ask_volume = 0 then 0
       else (s.bid_volume - s.ask_volume) / (s.bid_volume + s.ask_volume)) ∧
    (PhysicsEngine.calculate_single_obi s).entropy =
      (if (s.bid_price + s.ask_price) / 2 = 0 then 1
       else |s.ask_price - s.bid_price| / ((s.bid_price + s.ask_price) / 2)) ∧
    -1 ≤ (PhysicsEngine.calculate_single_obi s).obi ∧
    (PhysicsEngine.calculate_single_obi s).obi ≤ 1 ∧
    0 ≤ (PhysicsEngine.calculate_single_obi s).entropy := by
  have htv : 0 ≤ s.bid_volume + s.ask_volume := add_nonneg hbv hav
  have hpav : 0 ≤ (s.bid_price + s.ask_price) / 2 := by positivity
  rw [calculate_single_obi_obi, calculate_single_obi_entropy]
  refine ⟨?_, ?_, ?_, ?_, ?_⟩
  · rcases eq_or_lt_of_le htv with h | h
    · rw [if_neg (by rw [← h]; exact lt_irrefl 0), if_pos h.symm]
    · rw [if_pos h, if_neg (ne_of_gt h)]
  · rcases eq_or_lt_of_le hpav with h | h
    · rw [if_neg (by rw [← h]; exact lt_irrefl 0), if_pos h.symm]
    · rw [if_pos h, if_neg (ne_of_gt h)]
  · rcases eq_or_lt_of_le htv with h | h
    · rw [if_neg (by rw [← h]; exact lt_irrefl 0)]; norm_num
    · rw [if_pos h, le_div_iff₀ h]; linarith
  · rcases eq_or_lt_of_le htv with h | h
    · rw [if_neg (by rw [← h]; exact lt_irrefl 0)]; norm_num
    · rw [if_pos h, div_le_one h]; linarith
  · rcases eq_or_lt_of_le hpav with h | h
    · rw [if_neg (by rw [← h]; exact lt_irrefl 0)]; norm_num
    · rw [if_pos h]
      exact div_nonneg (abs_nonneg _) h.le

/-- Witness for C2 at the spec's concrete scenario 1
(`bid_volume = 100`, `ask_volume = 50`, `bid_price = 99`,
`ask_price = 101`). -/
theorem c2_witness :
    -1 ≤ (obi_engine.PhysicsEngine.calculate_single_obi
        ⟨1000, 100, 50, 99, 101⟩).obi ∧
    (obi_engine.PhysicsEngine.calculate_single_obi
        ⟨1000, 100, 50, 99, 101⟩).obi ≤ 1 ∧
    0 ≤ (obi_engine.PhysicsEngine.calculate_single_obi
        ⟨1000, 100, 50, 99, 101⟩).entropy :=
  (c2_single_obi_formula_and_range ⟨1000, 100, 50, 99, 101⟩
    (by norm_num) (by norm_num) (by norm_num) (by norm_num)).2.2

open obi_engine in
/-- C4: the engine's inline classification and the standalone
`evaluate_market_entropy` use identical strict thresholds: the engine's
signal always equals `evaluate_market_entropy` applied to the computed
`obi`; `0.3` and `-0.3` exactly classify `NEUTRAL` in both; and values
strictly past the thresholds classify `BUY_PRESSURE` / `SELL_PRESSURE`. -/
theorem c4_classification_thresholds :
    (∀ s : obi_engine.OrderBookSnapshot,
      (PhysicsEngine.calculate_single_obi s).signal =
        lib.evaluate_market_entropy
          (PhysicsEngine.calculate_single_obi s).obi) ∧
    lib.evaluate_market_entropy 0.3 = "NEUTRAL" ∧
    lib.evaluate_market_entropy (-0.3) = "NEUTRAL" ∧
    lib.evaluate_market_entropy 0.31 = "BUY_PRESSURE" ∧
    lib.evaluate_market_entropy (-0.31) = "SELL_PRESSURE" ∧
    (PhysicsEngine.calculate_single_obi ⟨0, 13, 7, 99, 101⟩).signal =
      "NEUTRAL" ∧
    (PhysicsEngine.calculate_single_obi ⟨0, 7, 13, 99, 101⟩).signal =
      "NEUTRAL" := by
  refine ⟨fun s => rfl, ?_, ?_, ?_, ?_, ?_, ?_⟩
  · unfold lib.evaluate_market_entropy
    rw [if_neg (by norm_num), if_neg (by norm_num)]
  · unfold lib.evaluate_market_entropy
    rw [if_neg (by norm_num), if_neg (by norm_num)]
  · unfold lib.evaluate_market_entropy
    rw [if_pos (by norm_num)]
  · unfold lib.evaluate_market_entropy
    rw [if_neg (by norm_num), if_pos (by norm_num)]
  · rw [calculate_single_obi_signal, calculate_single_obi_obi]
    norm_num
  · rw [calculate_single_obi_signal, calculate_single_obi_obi]
    norm_num

open tda obi_engine in
/-- C5: the per-snapshot curvature is
`min (|ask_price - bid_price| / (bid_volume + ask_volume)) 1`, except that
a zero total volume yields `1`; under the data model's nonnegative fields
every score lies in `[0, 1]`. -/
theorem c5_curvature_formula_and_range
    (snapshots : List obi_engine.OrderBookSnapshot)
    (h : ∀ s ∈ snapshots, 0 ≤ s.bid_volume ∧ 0 ≤ s.ask_volume ∧
      0 ≤ s.bid_price ∧ 0 ≤ s.ask_price) :
    TopologicalAnalyzer.calculate_curvature snapshots =
      snapshots.map (fun s =>
        if s.bid_volume + s.ask_volume = 0 then 1
        else
          min (|s.ask_price - s.bid_price| /
            (s.bid_volume + s.ask_volume)) 1) ∧
    ∀ c ∈ TopologicalAnalyzer.calculate_curvature snapshots,
      0 ≤ c ∧ c ≤ 1 := by
  refine ⟨rfl, ?_⟩
  intro c hc
  rw [TopologicalAnalyzer.calculate_curvature, List.mem_map] at hc
  obtain ⟨s, hs, rfl⟩ := hc
  obtain ⟨hbv, hav, -, -⟩ := h s hs
  have htv : 0 ≤ s.bid_volume + s.ask_volume := add_nonneg hbv hav
  by_cases h0 : s.bid_volume + s.ask_volume = 0
  · rw [if_pos h0]; norm_num
  · rw [if_neg h0]
    have hpos : 0 < s.bid_volume + s.ask_volume := lt_of_le_of_ne htv (Ne.symm h0)
    constructor
    · exact le_min (div_nonneg (abs_nonneg _) hpos.le) zero_le_one
    · exact min_le_right _ _

/-- Witness for C5 at the concrete singleton batch holding the spec's
empty-book snapshot, whose curvature score is the sentinel `1`. -/
theorem c5_witness : 0 ≤ (1 : ℚ) ∧ (1 : ℚ) ≤ 1 :=
  (c5_curvature_formula_and_range [⟨0, 0, 0, 0, 0⟩]
    (by intro s hs; rw [List.mem_singleton] at hs; subst hs
        refine ⟨by norm_num, by norm_num, by norm_num, by norm_num⟩)).2 1
    (by simp [tda.TopologicalAnalyzer.calculate_curvature])

open game_theory in
/-- C7: the competitor heuristic evaluates its rules in fixed first-match
order, so any input with `bid_volume > 1000` yields the bid-wall verdict
regardless of the other fields; at `(1500, 2000, 5.0)` the verdict is the
bid-wall verdict; and every result is one of the four fixed strings. -/
theorem c7_competitor_first_match :
    (∀ bid_volume ask_volume spread_percent : ℚ, 1000 < bid_volume →
      CompetitorAnalysis.analyze bid_volume ask_volume spread_percent =
        "DETECTED_FAKE_WALL_BID: DEPLOY_BAIT_SELL") ∧
    CompetitorAnalysis.analyze 1500 2000 5.0 =
      "DETECTED_FAKE_WALL_BID: DEPLOY_BAIT_SELL" ∧
    ∀ b a sp : ℚ,
      CompetitorAnalysis.analyze b a sp =
        "DETECTED_FAKE_WALL_BID: DEPLOY_BAIT_SELL" ∨
      CompetitorAnalysis.analyze b a sp =
        "DETECTED_FAKE_WALL_ASK: DEPLOY_BAIT_BUY" ∨
      CompetitorAnalysis.analyze b a sp = "MARKET_VOID: DEPLOY_PROBE" ∨
      CompetitorAnalysis.analyze b a sp = "NO_COMPETITOR_ANOMALY" := by
  refine ⟨?_,
    by unfold CompetitorAnalysis.analyze; rw [if_pos (by norm_num)], ?_⟩
  · intro b a sp hb
    have hb' : b > (1000.0 : ℚ) := by
      have h10 : (1000.0 : ℚ) = 1000 := by norm_num
      rw [h10]
      exact hb
    unfold CompetitorAnalysis.analyze
    rw [if_pos hb']
  · intro b a sp
    rw [CompetitorAnalysis.analyze]
    split_ifs <;> simp

/-- Witness for C7: the first-match rule applied at the spec's concrete
priority scenario `(1500, 2000, 5.0)`. -/
theorem c7_witness :
    game_theory.CompetitorAnalysis.analyze 1500 2000 5.0 =
      "DETECTED_FAKE_WALL_BID: DEPLOY_BAIT_SELL" :=
  c7_competitor_first_match.1 1500 2000 5.0 (by norm_num)

/-- Helper: for every initialized engine, the public batch computation's
result component is the element-wise map of `calculate_single_obi`,
whatever the cuda configuration, GPU allocation outcome, and stored
engine. -/
theorem calculate_obi_batch_initialized (cuda_enabled : Bool)
    (alloc_fail : Option String) (eng : obi_engine.PhysicsEngine)
    (snapshots : List obi_engine.OrderBookSnapshot) :
    (obi_engine.calculate_obi_batch cuda_enabled alloc_fail (some eng)
        snapshots).1 =
      snapshots.map obi_engine.PhysicsEngine.calculate_single_obi := by
  obtain ⟨gd, cf⟩ := eng
  cases cuda_enabled <;>
    cases gd <;>
      cases alloc_fail <;>
        simp [obi_engine.calculate_obi_batch,
          obi_engine.PhysicsEngine.calculate_obi_batch_gpu,
          obi_engine.PhysicsEngine.calculate_obi_batch_cpu]

open obi_engine in
/-- C1: for every initialized engine and every batch, the public
`calculate_obi_batch` returns exactly one result per snapshot, in input
order, the `i`-th being `calculate_single_obi` of the `i`-th snapshot;
the GPU path always returns an error (never results), so every call
reduces to the CPU path, which is the sequential element-wise map. -/
theorem c1_batch_refines_pointwise_map (cuda_enabled : Bool)
    (alloc_fail : Option String) (eng : obi_engine.PhysicsEngine)
    (snapshots : List obi_engine.OrderBookSnapshot) :
    (calculate_obi_batch cuda_enabled alloc_fail (some eng) snapshots).1 =
      snapshots.map PhysicsEngine.calculate_single_obi ∧
    (calculate_obi_batch cuda_enabled alloc_fail (some eng)
        snapshots).1.length = snapshots.length ∧
    (∀ i : ℕ,
      (calculate_obi_batch cuda_enabled alloc_fail (some eng)
          snapshots).1[i]? =
        snapshots[i]?.map PhysicsEngine.calculate_single_obi) ∧
    (∀ (af : Option String) (snaps : List obi_engine.OrderBookSnapshot),
      ∃ e, PhysicsEngine.calculate_obi_batch_gpu af snaps =
        Except.error e) ∧
    PhysicsEngine.calculate_obi_batch_cpu snapshots =
      snapshots.map PhysicsEngine.calculate_single_obi := by
  have hmap := calculate_obi_batch_initialized cuda_enabled alloc_fail eng
    snapshots
  refine ⟨hmap, ?_, ?_, ?_, rfl⟩
  · rw [hmap, List.length_map]
  · intro i
    rw [hmap, List.getElem?_map]
  · intro af snaps
    cases af with
    | none => exact ⟨_, rfl⟩
    | some e => exact ⟨_, rfl⟩

open obi_engine in
/-- C8: when the backend singleton was never initialized, the public
batch computation returns the empty result list together with the
not-initialized diagnostic, for every input batch and configuration,
without error. -/
theorem c8_uninitialized_returns_empty (cuda_enabled : Bool)
    (alloc_fail : Option String)
    (snapshots : List obi_engine.OrderBookSnapshot) :
    calculate_obi_batch cuda_enabled alloc_fail none snapshots =
      ([], ["[OBI_ENGINE] ⚠ Engine not initialized! Call init() first."]) :=
  rfl

open obi_engine in
/-- C6 counterexample: with the accelerated feature compiled in, a first
`init` whose probe succeeds stores the hardware engine, but a second
`init` whose probe fails overwrites it with the CPU engine — the
already-set mode is changed, so the second call is not a no-op. -/
theorem c6_counterexample :
    (PhysicsEngine.init true true none).1 =
      some { gpu_device := some (), cpu_fallback := false } ∧
    (PhysicsEngine.init true false
        ((PhysicsEngine.init true true none).1)).1 =
      some { gpu_device := none, cpu_fallback := true } ∧
    (PhysicsEngine.init true false
        ((PhysicsEngine.init true true none).1)).1 ≠
      (PhysicsEngine.init true true none).1 := by
  refine ⟨rfl, rfl, ?_⟩
  intro h
  simp [PhysicsEngine.init] at h

open obi_engine in
/-- C6 amended: `init` ignores the existing singleton state and always
re-runs initialization, returning `Ok` each time; re-initialization with
the same probe outcome yields the same stored state, and without the
accelerated feature the stored mode is the CPU fallback regardless of the
probe — but the second call is a fresh overwrite, not a guarded no-op. -/
theorem c6_init_overwrites (cuda_enabled cuda_probe_ok : Bool)
    (st st' : Option obi_engine.PhysicsEngine) :
    PhysicsEngine.init cuda_enabled cuda_probe_ok st =
      PhysicsEngine.init cuda_enabled cuda_probe_ok st' ∧
    (PhysicsEngine.init cuda_enabled cuda_probe_ok st).2 =
      Except.ok () ∧
    (PhysicsEngine.init cuda_enabled cuda_probe_ok
        ((PhysicsEngine.init cuda_enabled cuda_probe_ok st).1)).1 =
      (PhysicsEngine.init cuda_enabled cuda_probe_ok st).1 ∧
    (∀ p₁ p₂ : Bool,
      (PhysicsEngine.init false p₁ st).1 =
        (PhysicsEngine.init false p₂ st).1) := by
  refine ⟨rfl, ?_, rfl, fun p₁ p₂ => rfl⟩
  cases cuda_enabled <;> cases cuda_probe_ok <;> rfl

/-- C9 counterexample: `check_gpu_status` answers identically on a
hardware-accelerated engine and on a CPU-fallback engine — it does not
distinguish the stored backend mode. -/
theorem c9_counterexample :
    lib.check_gpu_status
        (some { gpu_device := some (), cpu_fallback := false }) =
      lib.check_gpu_status
        (some { gpu_device := none, cpu_fallback := true }) := rfl

/-- C9 amended: `check_gpu_status` returns one fixed readiness string for
every backend state (initialized or not, either mode); the actual mode is
only reported in logs, never by this query. -/
theorem c9_status_is_constant (engine engine' :
    Option obi_engine.PhysicsEngine) :
    lib.check_gpu_status engine =
      "✅ Physics Engine: READY (Check logs for CUDA/CPU mode)" ∧
    lib.check_gpu_status engine = lib.check_gpu_status engine' :=
  ⟨rfl, rfl⟩

open tda in
/-- C3 (code bug): `detect_holes` has no empty-batch guard — on the empty
batch the averaging divides by a zero length (in `f64`, `0.0 / 0.0 = NaN`
and `NaN > 0.05` is `false`; in this total-division embedding the
quotient is `0`), so the call evaluates the division by zero instead of
guarding it and returns `false`. -/
theorem c3_empty_batch_division_unguarded :
    (TopologicalAnalyzer.calculate_curvature []).length = 0 ∧
    (TopologicalAnalyzer.calculate_curvature []).sum /
        ((TopologicalAnalyzer.calculate_curvature []).length : ℚ) =
      (0 : ℚ) / (0 : ℚ) ∧
    TopologicalAnalyzer.detect_holes [] = false := by
  refine ⟨rfl, ?_, ?_⟩
  · simp only [TopologicalAnalyzer.calculate_curvature, List.map_nil,
      List.sum_nil, List.length_nil, Nat.cast_zero]
  · simp only [TopologicalAnalyzer.detect_holes,
      TopologicalAnalyzer.calculate_curvature, List.map_nil, List.sum_nil,
      List.length_nil, Nat.cast_zero]
    rw [decide_eq_false_iff_not]
    norm_num

open obi_engine lib in
/-- C10: the facade converts every input element to a snapshot with
timestamp `0` (the TypeScript-facing input carries no timestamp at all),
its result is the element-wise map stamped with the single measured batch
latency — so every element of one call's result carries the same
`gpu_latency_ms` — and two engine snapshots that differ only in their
timestamp get identical `obi` and `signal` values. -/
theorem c10_facade_discards_timestamps (cuda_enabled : Bool)
    (alloc_fail : Option String) (eng : obi_engine.PhysicsEngine)
    (market_data : List lib.OrderBookData) (gpu_latency_ms : ℚ) :
    (∀ data : lib.OrderBookData, (toSnapshot data).timestamp = 0) ∧
    lib.calculate_obi_batch cuda_enabled alloc_fail (some eng) market_data
        gpu_latency_ms =
      market_data.map (fun d =>
        { imbalance :=
            (PhysicsEngine.calculate_single_obi (toSnapshot d)).obi
          signal :=
            (PhysicsEngine.calculate_single_obi (toSnapshot d)).signal
          gpu_latency_ms := gpu_latency_ms }) ∧
    (∀ engine : Option obi_engine.PhysicsEngine,
      ∀ r ∈ lib.calculate_obi_batch cuda_enabled alloc_fail engine
        market_data gpu_latency_ms, r.gpu_latency_ms = gpu_latency_ms) ∧
    (∀ s₁ s₂ : obi_engine.OrderBookSnapshot,
      s₁.bid_volume = s₂.bid_volume → s₁.ask_volume = s₂.ask_volume →
      s₁.bid_price = s₂.bid_price → s₁.ask_price = s₂.ask_price →
      (PhysicsEngine.calculate_single_obi s₁).obi =
        (PhysicsEngine.calculate_single_obi s₂).obi ∧
      (PhysicsEngine.calculate_single_obi s₁).signal =
        (PhysicsEngine.calculate_single_obi s₂).signal) := by
  refine ⟨fun data => rfl, ?_, ?_, ?_⟩
  · simp only [lib.calculate_obi_batch]
    rw [calculate_obi_batch_initialized, List.map_map, List.map_map]
    rfl
  · intro engine r hr
    simp only [lib.calculate_obi_batch] at hr
    rw [List.mem_map] at hr
    obtain ⟨r', -, rfl⟩ := hr
    rfl
  · intro s₁ s₂ h₁ h₂ h₃ h₄
    obtain ⟨t₁, bv₁, av₁, bp₁, ap₁⟩ := s₁
    obtain ⟨t₂, bv₂, av₂, bp₂, ap₂⟩ := s₂
    cases h₁
    cases h₂
    cases h₃
    cases h₄
    exact ⟨rfl, rfl⟩

/-- Witness for C10 at two concrete snapshots that differ only in their
timestamp, via the concrete facade configuration
(cpu engine, no allocation failure, empty batch, latency `7`). -/
theorem c10_witness :
    (obi_engine.PhysicsEngine.calculate_single_obi
        ⟨1, 100, 50, 99, 101⟩).obi =
      (obi_engine.PhysicsEngine.calculate_single_obi
        ⟨2, 100, 50, 99, 101⟩).obi ∧
    (obi_engine.PhysicsEngine.calculate_single_obi
        ⟨1, 100, 50, 99, 101⟩).signal =
      (obi_engine.PhysicsEngine.calculate_single_obi
        ⟨2, 100, 50, 99, 101⟩).signal :=
  (c10_facade_discards_timestamps false none
      { gpu_device := none, cpu_fallback := true } [] 7).2.2.2
    ⟨1, 100, 50, 99, 101⟩ ⟨2, 100, 50, 99, 101⟩ rfl rfl rfl rfl

end NightPower
